import Mathlib

/-!
# Todo CRUD handlers (`routes/todo.js`)

A shallow embedding of the five Express route handlers of `routes/todo.js`
and of the part of the JavaScript semantics they rely on (the relational
operators used by the status check), followed by the properties of the
handlers.

Conventions of the embedding:

* `req.body` is the object produced by `express.json()`; its `content` and
  `status` fields are JSON values, or `undefined` when the field is absent.
* a JSON number is represented by the exact value of the double it denotes
  (every finite double is a rational number) or by an infinity; the type
  admits every rational, so a property proved for all of its values holds
  for the doubles;
* an exception thrown while the status check is evaluated leaves the
  handler before it has sent a response (`Reply.uncaught`);
* `client.query(text, values, callback)` either throws synchronously, or
  invokes its callback with an error, or invokes it with a result; the
  database client is a parameter `Client σ` acting on a database state `σ`.
-/

namespace TodoApi

/-! ## JavaScript values -/

/-- Values of the JavaScript Number type: the finite doubles (given by
their exact rational value), the two infinities and NaN. -/
inductive JsNum where
  | nan
  | posInf
  | negInf
  | fin (q : ℚ)

/-- Values a field of a parsed JSON body can hold, together with
`undefined`, the value read from an absent field. -/
inductive JsValue where
  | undefined
  | null
  | bool (b : Bool)
  | num (n : JsNum)
  | str (s : String)
  | arr (items : List JsValue)
  | obj (fields : List (String × JsValue))

/-- Conversions of the JavaScript runtime that the handlers do not define.
`stringToNumber` is `StringToNumber` of ECMA-262 (the number a string
converts to, NaN when it is not a numeric literal). `toPrimitive` is
`ToPrimitive` on an array or object: the string it converts to, or `none`
when the conversion throws a `TypeError`. -/
structure JsRuntime where
  stringToNumber : String → JsNum
  toPrimitive : JsValue → Option String

/-- The abstract operation `ToNumber`; `none` when it throws. -/
def toNumber (rt : JsRuntime) : JsValue → Option JsNum
  | .undefined => some .nan
  | .null => some (.fin 0)
  | .bool true => some (.fin 1)
  | .bool false => some (.fin 0)
  | .num n => some n
  | .str s => some (rt.stringToNumber s)
  | .arr items => (rt.toPrimitive (.arr items)).map rt.stringToNumber
  | .obj fields => (rt.toPrimitive (.obj fields)).map rt.stringToNumber

/-- The operation `Number::lessThan (x, y)`; `none` stands for the result
`undefined`, produced when an operand is NaN. -/
def JsNum.lessThan : JsNum → JsNum → Option Bool
  | .nan, _ => none
  | _, .nan => none
  | .posInf, _ => some false
  | _, .posInf => some true
  | _, .negInf => some false
  | .negInf, _ => some true
  | .fin x, .fin y => some (decide (x < y))

/-- The expression `v < k` for a number literal `k`: `v` is converted with
`ToNumber`, and an undefined comparison yields `false`. The outer `none`
is a thrown `TypeError`. -/
def jsLt (rt : JsRuntime) (v : JsValue) (k : ℚ) : Option Bool :=
  (toNumber rt v).map fun n => (JsNum.lessThan n (.fin k)).getD false

/-- The expression `v > k` for a number literal `k`, that is `k < v` with
the operands evaluated left to right. -/
def jsGt (rt : JsRuntime) (v : JsValue) (k : ℚ) : Option Bool :=
  (toNumber rt v).map fun n => (JsNum.lessThan (.fin k) n).getD false

/-! ## Requests, responses and the database client -/

/-- The route parameters, `req.params`. -/
structure Params where
  id : String

/-- The parsed JSON body, `req.body`. -/
structure ReqBody where
  content : JsValue
  status : JsValue

/-- The part of an Express request the handlers read. -/
structure Request where
  params : Params
  body : ReqBody

/-- A record of the `todo` table as the database client returns it. -/
structure Row where
  id : Nat
  content : JsValue
  status : JsValue

/-- The body of a response: text written by `send`, rows written by `json`. -/
inductive Body where
  | text (s : String)
  | json (rows : List Row)

/-- What the caller observes of a handler: a response that was sent, or an
exception that left the handler before any response was sent. -/
inductive Reply where
  | sent (statusCode : Nat) (body : Body)
  | uncaught

/-- The Express response object, `res`; it carries the status code set so far. -/
structure Res where
  statusCode : Nat

/-- The response object a handler receives. -/
def res : Res := ⟨200⟩

/-- The call `res.status(code)`. -/
def Res.status (_r : Res) (code : Nat) : Res := ⟨code⟩

/-- The call `res.send(text)`. -/
def Res.send (r : Res) (s : String) : Reply := .sent r.statusCode (.text s)

/-- The call `res.json(rows)`. -/
def Res.json (r : Res) (rows : List Row) : Reply := .sent r.statusCode (.json rows)

/-- The arguments of one call `client.query(text, values, callback)`;
`values` is `none` for the form without bind parameters. -/
structure Statement where
  text : String
  values : Option (List JsValue)

/-- The error value a failed query hands to the callback. -/
structure DbError where
  message : String

/-- The result object of a successful query. -/
structure QueryResult where
  rows : List Row
  rowCount : Nat

/-- How a call to `client.query` ends: it throws synchronously, or it
invokes the callback with an error, or it invokes the callback with a
result. -/
inductive QueryOutcome where
  | threw
  | failed (err : DbError)
  | ok (result : QueryResult)

/-- The database client: from a database state and a statement, the way the
call ends and the database state afterwards. -/
abbrev Client (σ : Type) := σ → Statement → QueryOutcome × σ

/-- The observable result of running a handler: the reply, the calls made
to the database client (each with the way it ended), in order, and the
database state afterwards. -/
structure Result (σ : Type) where
  reply : Reply
  calls : List (Statement × QueryOutcome)
  db : σ

/-! ## The handlers -/

/-- The statement text of `router.get("/")`. -/
def selectAllSql : String := "SELECT * FROM todo"

/-- The statement text of `router.post("/")`. -/
def insertSql : String :=
  "INSERT INTO todo (content,status) \n                     VALUES ($1,$2)"

/-- The statement text of `router.delete("/:id")`. -/
def deleteSql : String := "DELETE FROM todo WHERE id = $1"

/-- The statement text of `router.put("/:id")`. -/
def updateSql : String :=
  "UPDATE todo \n                     SET content = $1, status = $2 \n                     WHERE id = $3"

/-- The statement text of `router.get("/:id")`. -/
def selectByIdSql : String := "SELECT * FROM todo \n                  WHERE id = $1"

/-- The condition `req.body.status < 1 || req.body.status > 3`; `none`
when evaluating it throws. -/
def statusRejected (rt : JsRuntime) (status : JsValue) : Option Bool :=
  match jsLt rt status 1 with
  | none => none
  | some true => some true
  | some false => jsGt rt status 3

/-- The handler `router.get("/", ...)`: list all records. -/
def routerGet {σ : Type} (client : Client σ) (_req : Request) (db : σ) : Result σ :=
  let query := selectAllSql
  let stmt : Statement := ⟨query, none⟩
  let out := client db stmt
  let reply :=
    match out.1 with
    | .failed _ => (res.status 500).send "Error retrieving data from database"
    | .ok result => (res.status 200).json result.rows
    | .threw => (res.status 404).send "Some error occured in fetching"
  ⟨reply, [(stmt, out.1)], out.2⟩

/-- The handler `router.post("/", ...)`: create a record. -/
def routerPost {σ : Type} (rt : JsRuntime) (client : Client σ) (req : Request) (db : σ) :
    Result σ :=
  match statusRejected rt req.body.status with
  | none => ⟨.uncaught, [], db⟩
  | some true => ⟨(res.status 500).send "You can only enter values between 1 and 3", [], db⟩
  | some false =>
    let query := insertSql
    let values := [req.body.content, req.body.status]
    let stmt : Statement := ⟨query, some values⟩
    let out := client db stmt
    let reply :=
      match out.1 with
      | .failed _ => (res.status 500).send "Error inserting data into database"
      | .ok _ => (res.status 201).send "New Todo task is created successfully"
      | .threw => (res.status 404).send "Some error occured in fetching"
    ⟨reply, [(stmt, out.1)], out.2⟩

/-- The handler `router.delete("/:id", ...)`: delete a record by id. -/
def routerDelete {σ : Type} (client : Client σ) (req : Request) (db : σ) : Result σ :=
  let query := deleteSql
  let value := [JsValue.str req.params.id]
  let stmt : Statement := ⟨query, some value⟩
  let out := client db stmt
  let reply :=
    match out.1 with
    | .failed _ => (res.status 500).send "Error deleting data from database"
    | .ok _ => (res.status 200).send ("The todo task with id " ++ req.params.id ++ " was deleted")
    | .threw => (res.status 404).send "Some error occured in fetching"
  ⟨reply, [(stmt, out.1)], out.2⟩

/-- The handler `router.put("/:id", ...)`: update a record by id. -/
def routerPut {σ : Type} (rt : JsRuntime) (client : Client σ) (req : Request) (db : σ) :
    Result σ :=
  match statusRejected rt req.body.status with
  | none => ⟨.uncaught, [], db⟩
  | some true => ⟨(res.status 500).send "You can only enter values between 1 and 3", [], db⟩
  | some false =>
    let query := updateSql
    let values := [req.body.content, req.body.status, JsValue.str req.params.id]
    let stmt : Statement := ⟨query, some values⟩
    let out := client db stmt
    let reply :=
      match out.1 with
      | .failed _ => (res.status 500).send "Error updating data in database"
      | .ok _ => (res.status 200).send "Task updated successfully"
      | .threw => (res.status 404).send "Some error occured in fetching"
    ⟨reply, [(stmt, out.1)], out.2⟩

/-- The handler `router.get("/:id", ...)`: get a record by id. -/
def routerGetId {σ : Type} (client : Client σ) (req : Request) (db : σ) : Result σ :=
  let query := selectByIdSql
  let value := [JsValue.str req.params.id]
  let stmt : Statement := ⟨query, some value⟩
  let out := client db stmt
  let reply :=
    match out.1 with
    | .failed _ => (res.status 500).send "Error retrieving data from database"
    | .ok result => (res.status 200).json result.rows
    | .threw => (res.status 404).send "Some error occured in fetching"
  ⟨reply, [(stmt, out.1)], out.2⟩

/-- The five operations the router registers. -/
inductive Op where
  | list
  | getById
  | create
  | update
  | delete

/-- The router: dispatch of a request to the handler registered for its
method and path. -/
def handle {σ : Type} (rt : JsRuntime) (client : Client σ) : Op → Request → σ → Result σ
  | .list => routerGet client
  | .getById => routerGetId client
  | .create => routerPost rt client
  | .update => routerPut rt client
  | .delete => routerDelete client

/-! ## Vocabulary of the properties -/

/-- A number is below the bound `k`. -/
def JsNum.below (n : JsNum) (k : ℚ) : Prop :=
  match n with
  | .fin q => q < k
  | .negInf => True
  | _ => False

/-- A number is above the bound `k`. -/
def JsNum.above (n : JsNum) (k : ℚ) : Prop :=
  match n with
  | .fin q => k < q
  | .posInf => True
  | _ => False

/-- A value is one of the numbers 1, 2, 3. -/
def JsValue.isValidStatus (v : JsValue) : Prop :=
  v = .num (.fin 1) ∨ v = .num (.fin 2) ∨ v = .num (.fin 3)

instance JsNum.decidableBelow (n : JsNum) (k : ℚ) : Decidable (n.below k) := by
  cases n <;> simp only [JsNum.below] <;> infer_instance

instance JsNum.decidableAbove (n : JsNum) (k : ℚ) : Decidable (n.above k) := by
  cases n <;> simp only [JsNum.above] <;> infer_instance

instance JsValue.decidableIsValidStatus (v : JsValue) : Decidable v.isValidStatus := by
  unfold JsValue.isValidStatus
  cases v with
  | num n =>
    cases n with
    | fin q => exact decidable_of_iff (q = 1 ∨ q = 2 ∨ q = 3) (by simp)
    | _ => exact isFalse (by simp)
  | _ => exact isFalse (by simp)

/-- The reply of create and update to a status that fails the check. -/
def rejection : Reply := .sent 500 (.text "You can only enter values between 1 and 3")

/-- The body the spec assigns to a storage failure of each operation. -/
def storageErrorText : Op → String
  | .list => "Error retrieving data from database"
  | .getById => "Error retrieving data from database"
  | .create => "Error inserting data into database"
  | .update => "Error updating data in database"
  | .delete => "Error deleting data from database"

/-! ## Fixtures for evaluating the handlers -/

/-- A runtime for evaluating the handlers on a status that is neither a
string nor an array nor an object; its conversions are never consulted on
such a status. -/
def scalarRuntime : JsRuntime := ⟨fun _ => .nan, fun _ => none⟩

/-- A client whose every call reports success with no rows. -/
def okClient : Client Unit := fun db _ => (.ok ⟨[], 0⟩, db)

/-- A client whose every call reports the given error to the callback. -/
def failingClient (err : DbError) : Client Unit := fun db _ => (.failed err, db)

/-- A client whose every call throws synchronously. -/
def throwingClient : Client Unit := fun db _ => (.threw, db)

/-- A request with the given id, content and status. -/
def mkRequest (id : String) (content status : JsValue) : Request := ⟨⟨id⟩, ⟨content, status⟩⟩

/-! ## A storage model for the `todo` table -/

/-- Modelled from the spec: the relational table `todo` and its id
generator, which belong to the database server and are not part of the
repository. The table is a collection of rows; `nextId` is the next value
of the generated primary key. -/
structure Store where
  rows : List Row
  nextId : Nat

/-- Modelled from the spec: the ids in use were all generated already, so
the next generated id is fresh. -/
def Store.WellFormed (st : Store) : Prop := ∀ r ∈ st.rows, r.id < st.nextId

instance Store.decidableWellFormed (st : Store) : Decidable st.WellFormed := by
  unfold Store.WellFormed
  infer_instance

/-- Modelled from the spec: `INSERT` adds one row, made of the two bind
parameters, under a fresh server-assigned id. -/
def Store.insert (st : Store) (content status : JsValue) : Store :=
  ⟨st.rows ++ [⟨st.nextId, content, status⟩], st.nextId + 1⟩

/-- Modelled from the spec: `SELECT * FROM todo` returns every row. -/
def Store.selectAll (st : Store) : List Row := st.rows

/-- Modelled from the spec: the database client over the storage model.
It executes the `INSERT` of create and the `SELECT *` of list; the
statements addressed by id are outside the model and are reported as
errors. -/
def storeClient : Client Store := fun st stmt =>
  if stmt.text = insertSql then
    match stmt.values with
    | some [content, status] => (.ok ⟨[], 1⟩, st.insert content status)
    | _ => (.failed ⟨"bind parameters do not fit the statement"⟩, st)
  else if stmt.text = selectAllSql then
    (.ok ⟨st.selectAll, st.selectAll.length⟩, st)
  else (.failed ⟨"statement outside the storage model"⟩, st)

/-- A table holding one record, with the id generator past it. -/
def sampleStore : Store := ⟨[⟨1, .str "Walk the dog", .num (.fin 2)⟩], 2⟩

/-! ## Lemmas on the status check -/

theorem lessThan_getD_below (n : JsNum) (k : ℚ) :
    (JsNum.lessThan n (.fin k)).getD false = true ↔ n.below k := by
  cases n <;> simp [JsNum.lessThan, JsNum.below]

theorem lessThan_getD_above (n : JsNum) (k : ℚ) :
    (JsNum.lessThan (.fin k) n).getD false = true ↔ n.above k := by
  cases n <;> simp [JsNum.lessThan, JsNum.above]

/-- The status check in terms of the number the status converts to. -/
theorem statusRejected_eq (rt : JsRuntime) (v : JsValue) :
    statusRejected rt v =
      (toNumber rt v).map fun n =>
        (JsNum.lessThan n (.fin 1)).getD false || (JsNum.lessThan (.fin 3) n).getD false := by
  unfold statusRejected jsLt jsGt
  cases h : toNumber rt v with
  | none => simp
  | some n =>
    cases hb : (JsNum.lessThan n (.fin 1)).getD false <;> simp [hb]

theorem statusRejected_true_iff (rt : JsRuntime) (v : JsValue) :
    statusRejected rt v = some true ↔
      ∃ n, toNumber rt v = some n ∧ (n.below 1 ∨ n.above 3) := by
  rw [statusRejected_eq]
  cases h : toNumber rt v with
  | none => simp
  | some n => simp [lessThan_getD_below, lessThan_getD_above]

theorem statusRejected_false_iff (rt : JsRuntime) (v : JsValue) :
    statusRejected rt v = some false ↔
      ∃ n, toNumber rt v = some n ∧ ¬ n.below 1 ∧ ¬ n.above 3 := by
  rw [statusRejected_eq]
  cases h : toNumber rt v with
  | none => simp
  | some n =>
    simp only [Option.map_some', Option.some.injEq, Bool.or_eq_false_iff, exists_eq_left']
    rw [← lessThan_getD_below, ← lessThan_getD_above]
    simp

/-- On a status that is a number or is absent the check does not consult
the conversions of the runtime. -/
theorem statusRejected_runtime_free (rt rt2 : JsRuntime) (v : JsValue)
    (h : (∃ n, v = .num n) ∨ v = .undefined ∨ v = .null ∨ ∃ b, v = .bool b) :
    statusRejected rt v = statusRejected rt2 v := by
  rw [statusRejected_eq, statusRejected_eq]
  rcases h with ⟨n, rfl⟩ | rfl | rfl | ⟨b, rfl⟩
  · rfl
  · rfl
  · rfl
  · cases b <;> rfl

theorem isValidStatus_accepted (rt : JsRuntime) (v : JsValue) (h : v.isValidStatus) :
    statusRejected rt v = some false := by
  rw [statusRejected_false_iff]
  rcases h with h | h | h <;> subst h <;>
    exact ⟨_, rfl, by simp only [JsNum.below]; norm_num, by simp only [JsNum.above]; norm_num⟩

/-! ## Lemmas on the handlers -/

theorem routerPost_rejected {σ : Type} (rt : JsRuntime) (client : Client σ) (req : Request)
    (db : σ) (h : statusRejected rt req.body.status = some true) :
    routerPost rt client req db = ⟨rejection, [], db⟩ := by
  simp [routerPost, h, rejection, Res.send, Res.status]

theorem routerPut_rejected {σ : Type} (rt : JsRuntime) (client : Client σ) (req : Request)
    (db : σ) (h : statusRejected rt req.body.status = some true) :
    routerPut rt client req db = ⟨rejection, [], db⟩ := by
  simp [routerPut, h, rejection, Res.send, Res.status]

theorem routerPost_accepted {σ : Type} (rt : JsRuntime) (client : Client σ) (req : Request)
    (db : σ) (h : statusRejected rt req.body.status = some false) :
    routerPost rt client req db =
      ⟨(match (client db ⟨insertSql, some [req.body.content, req.body.status]⟩).1 with
        | .failed _ => .sent 500 (.text "Error inserting data into database")
        | .ok _ => .sent 201 (.text "New Todo task is created successfully")
        | .threw => .sent 404 (.text "Some error occured in fetching")),
       [(⟨insertSql, some [req.body.content, req.body.status]⟩,
          (client db ⟨insertSql, some [req.body.content, req.body.status]⟩).1)],
       (client db ⟨insertSql, some [req.body.content, req.body.status]⟩).2⟩ := by
  simp only [routerPost, h]
  rfl

theorem routerPut_accepted {σ : Type} (rt : JsRuntime) (client : Client σ) (req : Request)
    (db : σ) (h : statusRejected rt req.body.status = some false) :
    routerPut rt client req db =
      ⟨(match (client db
            ⟨updateSql, some [req.body.content, req.body.status, .str req.params.id]⟩).1 with
        | .failed _ => .sent 500 (.text "Error updating data in database")
        | .ok _ => .sent 200 (.text "Task updated successfully")
        | .threw => .sent 404 (.text "Some error occured in fetching")),
       [(⟨updateSql, some [req.body.content, req.body.status, .str req.params.id]⟩,
          (client db
            ⟨updateSql, some [req.body.content, req.body.status, .str req.params.id]⟩).1)],
       (client db
          ⟨updateSql, some [req.body.content, req.body.status, .str req.params.id]⟩).2⟩ := by
  simp only [routerPut, h]
  rfl

theorem routerPost_calls {σ : Type} (rt : JsRuntime) (client : Client σ) (req : Request)
    (db : σ) :
    (routerPost rt client req db).calls =
      if statusRejected rt req.body.status = some false then
        [(⟨insertSql, some [req.body.content, req.body.status]⟩,
          (client db ⟨insertSql, some [req.body.content, req.body.status]⟩).1)]
      else [] := by
  cases h : statusRejected rt req.body.status with
  | none => simp [routerPost, h]
  | some b =>
    cases b
    · rw [routerPost_accepted rt client req db h]; simp
    · simp [routerPost, h]

theorem routerPut_calls {σ : Type} (rt : JsRuntime) (client : Client σ) (req : Request)
    (db : σ) :
    (routerPut rt client req db).calls =
      if statusRejected rt req.body.status = some false then
        [(⟨updateSql, some [req.body.content, req.body.status, .str req.params.id]⟩,
          (client db
            ⟨updateSql, some [req.body.content, req.body.status, .str req.params.id]⟩).1)]
      else [] := by
  cases h : statusRejected rt req.body.status with
  | none => simp [routerPut, h]
  | some b =>
    cases b
    · rw [routerPut_accepted rt client req db h]; simp
    · simp [routerPut, h]

theorem routerPost_reply {σ : Type} (rt : JsRuntime) (client : Client σ) (req : Request)
    (db : σ) (stmt : Statement) (out : QueryOutcome) :
    (stmt, out) ∈ (routerPost rt client req db).calls →
    (routerPost rt client req db).reply =
      match out with
      | .failed _ => .sent 500 (.text "Error inserting data into database")
      | .ok _ => .sent 201 (.text "New Todo task is created successfully")
      | .threw => .sent 404 (.text "Some error occured in fetching") := by
  intro h
  rw [routerPost_calls] at h
  split at h
  · next hacc =>
    simp only [List.mem_singleton, Prod.mk.injEq] at h
    obtain ⟨-, hout⟩ := h
    rw [routerPost_accepted rt client req db hacc, hout]
  · simp at h

theorem routerPut_reply {σ : Type} (rt : JsRuntime) (client : Client σ) (req : Request)
    (db : σ) (stmt : Statement) (out : QueryOutcome) :
    (stmt, out) ∈ (routerPut rt client req db).calls →
    (routerPut rt client req db).reply =
      match out with
      | .failed _ => .sent 500 (.text "Error updating data in database")
      | .ok _ => .sent 200 (.text "Task updated successfully")
      | .threw => .sent 404 (.text "Some error occured in fetching") := by
  intro h
  rw [routerPut_calls] at h
  split at h
  · next hacc =>
    simp only [List.mem_singleton, Prod.mk.injEq] at h
    obtain ⟨-, hout⟩ := h
    rw [routerPut_accepted rt client req db hacc, hout]
  · simp at h

theorem routerGet_eq {σ : Type} (client : Client σ) (req : Request) (db : σ) :
    routerGet client req db =
      ⟨(match (client db ⟨selectAllSql, none⟩).1 with
        | .failed _ => .sent 500 (.text "Error retrieving data from database")
        | .ok result => .sent 200 (.json result.rows)
        | .threw => .sent 404 (.text "Some error occured in fetching")),
       [(⟨selectAllSql, none⟩, (client db ⟨selectAllSql, none⟩).1)],
       (client db ⟨selectAllSql, none⟩).2⟩ := rfl

theorem routerGetId_eq {σ : Type} (client : Client σ) (req : Request) (db : σ) :
    routerGetId client req db =
      ⟨(match (client db ⟨selectByIdSql, some [.str req.params.id]⟩).1 with
        | .failed _ => .sent 500 (.text "Error retrieving data from database")
        | .ok result => .sent 200 (.json result.rows)
        | .threw => .sent 404 (.text "Some error occured in fetching")),
       [(⟨selectByIdSql, some [.str req.params.id]⟩,
          (client db ⟨selectByIdSql, some [.str req.params.id]⟩).1)],
       (client db ⟨selectByIdSql, some [.str req.params.id]⟩).2⟩ := rfl

theorem routerDelete_eq {σ : Type} (client : Client σ) (req : Request) (db : σ) :
    routerDelete client req db =
      ⟨(match (client db ⟨deleteSql, some [.str req.params.id]⟩).1 with
        | .failed _ => .sent 500 (.text "Error deleting data from database")
        | .ok _ =>
          .sent 200 (.text ("The todo task with id " ++ req.params.id ++ " was deleted"))
        | .threw => .sent 404 (.text "Some error occured in fetching")),
       [(⟨deleteSql, some [.str req.params.id]⟩,
          (client db ⟨deleteSql, some [.str req.params.id]⟩).1)],
       (client db ⟨deleteSql, some [.str req.params.id]⟩).2⟩ := rfl

theorem routerGet_reply {σ : Type} (client : Client σ) (req : Request)
    (db : σ) (stmt : Statement) (out : QueryOutcome) :
    (stmt, out) ∈ (routerGet client req db).calls →
    (routerGet client req db).reply =
      match out with
      | .failed _ => .sent 500 (.text "Error retrieving data from database")
      | .ok result => .sent 200 (.json result.rows)
      | .threw => .sent 404 (.text "Some error occured in fetching") := by
  intro h
  rw [routerGet_eq] at h ⊢
  simp only [List.mem_singleton, Prod.mk.injEq] at h
  rw [h.2]

theorem routerGetId_reply {σ : Type} (client : Client σ) (req : Request)
    (db : σ) (stmt : Statement) (out : QueryOutcome) :
    (stmt, out) ∈ (routerGetId client req db).calls →
    (routerGetId client req db).reply =
      match out with
      | .failed _ => .sent 500 (.text "Error retrieving data from database")
      | .ok result => .sent 200 (.json result.rows)
      | .threw => .sent 404 (.text "Some error occured in fetching") := by
  intro h
  rw [routerGetId_eq] at h ⊢
  simp only [List.mem_singleton, Prod.mk.injEq] at h
  rw [h.2]

theorem routerDelete_reply {σ : Type} (client : Client σ) (req : Request)
    (db : σ) (stmt : Statement) (out : QueryOutcome) :
    (stmt, out) ∈ (routerDelete client req db).calls →
    (routerDelete client req db).reply =
      match out with
      | .failed _ => .sent 500 (.text "Error deleting data from database")
      | .ok _ => .sent 200 (.text ("The todo task with id " ++ req.params.id ++ " was deleted"))
      | .threw => .sent 404 (.text "Some error occured in fetching") := by
  intro h
  rw [routerDelete_eq] at h ⊢
  simp only [List.mem_singleton, Prod.mk.injEq] at h
  rw [h.2]

/-! ## Properties of the handlers -/

/-- C1: a create or update request whose status is a number below 1 or
above 3 is answered with status 500 and the body "You can only enter values
between 1 and 3"; no call to the database client is made and the database
state is the one the handler started from. -/
theorem out_of_range_status_rejected {σ : Type} (rt : JsRuntime) (client : Client σ)
    (req : Request) (db : σ) (n : JsNum) (hnum : req.body.status = .num n)
    (hrange : n.below 1 ∨ n.above 3) :
    routerPost rt client req db =
        ⟨.sent 500 (.text "You can only enter values between 1 and 3"), [], db⟩ ∧
      routerPut rt client req db =
        ⟨.sent 500 (.text "You can only enter values between 1 and 3"), [], db⟩ := by
  have h : statusRejected rt req.body.status = some true := by
    rw [statusRejected_true_iff, hnum]
    exact ⟨n, rfl, hrange⟩
  exact ⟨routerPost_rejected rt client req db h, routerPut_rejected rt client req db h⟩

/-- Witness of C1 at the status 4, with the status 0 alongside. -/
theorem out_of_range_status_rejected_witness :
    (JsNum.fin 4).above 3 ∧ (JsNum.fin 0).below 1 ∧
      (routerPost scalarRuntime okClient (mkRequest "7" (.str "Buy milk") (.num (.fin 4))) () =
          ⟨.sent 500 (.text "You can only enter values between 1 and 3"), [], ()⟩ ∧
        routerPut scalarRuntime okClient (mkRequest "7" (.str "Buy milk") (.num (.fin 4))) () =
          ⟨.sent 500 (.text "You can only enter values between 1 and 3"), [], ()⟩) :=
  ⟨by simp only [JsNum.above]; norm_num, by simp only [JsNum.below]; norm_num,
    out_of_range_status_rejected scalarRuntime okClient
      (mkRequest "7" (.str "Buy milk") (.num (.fin 4))) () (.fin 4) rfl
      (Or.inr (by simp only [JsNum.above]; norm_num))⟩

/-- C2, refuted as stated: the status 1.5 is not one of 1, 2, 3, yet create
accepts it, answers 201 and hands the database client an INSERT whose
status bind parameter is 1.5; an absent status is not one of 1, 2, 3
either, yet update accepts it, answers 200 and hands the client an UPDATE
whose status bind parameter is `undefined`. -/
theorem status_outside_one_two_three_reaches_storage :
    (¬ (JsValue.num (.fin (3 / 2))).isValidStatus ∧
      routerPost scalarRuntime okClient
          (mkRequest "7" (.str "Buy milk") (.num (.fin (3 / 2)))) () =
        ⟨.sent 201 (.text "New Todo task is created successfully"),
          [(⟨insertSql, some [.str "Buy milk", .num (.fin (3 / 2))]⟩, .ok ⟨[], 0⟩)], ()⟩) ∧
    (¬ JsValue.undefined.isValidStatus ∧
      routerPut scalarRuntime okClient (mkRequest "7" (.str "Buy milk") .undefined) () =
        ⟨.sent 200 (.text "Task updated successfully"),
          [(⟨updateSql, some [.str "Buy milk", .undefined, .str "7"]⟩, .ok ⟨[], 0⟩)], ()⟩) := by
  refine ⟨⟨?_, ?_⟩, ⟨?_, ?_⟩⟩
  · simp only [JsValue.isValidStatus, JsValue.num.injEq, JsNum.fin.injEq]
    norm_num
  · rw [routerPost_accepted]
    · rfl
    · rw [statusRejected_false_iff]
      exact ⟨.fin (3 / 2), rfl, by simp only [JsNum.below]; norm_num,
        by simp only [JsNum.above]; norm_num⟩
  · simp [JsValue.isValidStatus]
  · rw [routerPut_accepted]
    · rfl
    · rw [statusRejected_false_iff]
      exact ⟨.nan, rfl, by simp [JsNum.below], by simp [JsNum.above]⟩

/-- C2, amended: the check of create and update is a range check on the
number the status converts to. A status that converts to a number below 1
or above 3 is rejected with status 500 before any statement is issued, and
every INSERT or UPDATE handed to the database client carries, as its second
bind parameter, the status of the request, which converts to a number that
is neither below 1 nor above 3. -/
theorem status_check_is_range_check {σ : Type} (rt : JsRuntime) (client : Client σ)
    (req : Request) (db : σ) :
    (∀ n, toNumber rt req.body.status = some n → n.below 1 ∨ n.above 3 →
      routerPost rt client req db =
          ⟨.sent 500 (.text "You can only enter values between 1 and 3"), [], db⟩ ∧
        routerPut rt client req db =
          ⟨.sent 500 (.text "You can only enter values between 1 and 3"), [], db⟩) ∧
    (∀ stmt out, (stmt, out) ∈ (routerPost rt client req db).calls →
      stmt.values = some [req.body.content, req.body.status] ∧
        ∃ n, toNumber rt req.body.status = some n ∧ ¬ n.below 1 ∧ ¬ n.above 3) ∧
    (∀ stmt out, (stmt, out) ∈ (routerPut rt client req db).calls →
      stmt.values = some [req.body.content, req.body.status, .str req.params.id] ∧
        ∃ n, toNumber rt req.body.status = some n ∧ ¬ n.below 1 ∧ ¬ n.above 3) := by
  refine ⟨?_, ?_, ?_⟩
  · intro n hn hrange
    have h : statusRejected rt req.body.status = some true :=
      (statusRejected_true_iff rt _).2 ⟨n, hn, hrange⟩
    exact ⟨routerPost_rejected rt client req db h, routerPut_rejected rt client req db h⟩
  · intro stmt out h
    rw [routerPost_calls] at h
    split at h
    · next hacc =>
      simp only [List.mem_singleton, Prod.mk.injEq] at h
      exact ⟨by rw [h.1], (statusRejected_false_iff rt _).1 hacc⟩
    · simp at h
  · intro stmt out h
    rw [routerPut_calls] at h
    split at h
    · next hacc =>
      simp only [List.mem_singleton, Prod.mk.injEq] at h
      exact ⟨by rw [h.1], (statusRejected_false_iff rt _).1 hacc⟩
    · simp at h

/-- C3: for a create request whose status is 1, 2 or 3, whatever its
content (the empty string included), when the call to the database client
reports no error the reply is status 201 with the body "New Todo task is
created successfully"; the reply mentions neither the content, the status
nor the result of the query. -/
theorem create_success_reply {σ : Type} (rt : JsRuntime) (client : Client σ)
    (req : Request) (db : σ) (result : QueryResult)
    (hstatus : req.body.status.isValidStatus)
    (hok : (client db ⟨insertSql, some [req.body.content, req.body.status]⟩).1 = .ok result) :
    (routerPost rt client req db).reply =
      .sent 201 (.text "New Todo task is created successfully") := by
  rw [routerPost_accepted rt client req db (isValidStatus_accepted rt _ hstatus), hok]

/-- Witness of C3 at the empty content and the status 2. -/
theorem create_success_reply_witness :
    (JsValue.num (.fin 2)).isValidStatus ∧
      (okClient () ⟨insertSql, some [.str "", .num (.fin 2)]⟩).1 = .ok ⟨[], 0⟩ ∧
      (routerPost scalarRuntime okClient (mkRequest "7" (.str "") (.num (.fin 2))) ()).reply =
        .sent 201 (.text "New Todo task is created successfully") :=
  ⟨Or.inr (Or.inl rfl), rfl,
    create_success_reply scalarRuntime okClient (mkRequest "7" (.str "") (.num (.fin 2))) ()
      ⟨[], 0⟩ (Or.inr (Or.inl rfl)) rfl⟩

/-- C4: for list and get-by-id, when the call to the database client
reports no error and returns the rows `result.rows`, the reply is status
200 with exactly these rows as its JSON body; in particular, when no row
is returned the reply is 200 with the empty list, not 404. -/
theorem read_success_reply {σ : Type} (rt : JsRuntime) (client : Client σ) (op : Op)
    (req : Request) (db : σ) (stmt : Statement) (result : QueryResult)
    (hop : op = .list ∨ op = .getById)
    (hok : (stmt, .ok result) ∈ (handle rt client op req db).calls) :
    (handle rt client op req db).reply = .sent 200 (.json result.rows) ∧
      (result.rows = [] → (handle rt client op req db).reply = .sent 200 (.json [])) := by
  have h : (handle rt client op req db).reply = .sent 200 (.json result.rows) := by
    rcases hop with rfl | rfl
    · exact routerGet_reply client req db stmt _ hok
    · exact routerGetId_reply client req db stmt _ hok
  exact ⟨h, fun hrows => by rw [h, hrows]⟩

/-- Witness of C4: get-by-id on a client that returns no row. -/
theorem read_success_reply_witness :
    (Op.getById = .list ∨ Op.getById = .getById) ∧
      ((⟨selectByIdSql, some [.str "7"]⟩, .ok ⟨[], 0⟩) ∈
        (handle scalarRuntime okClient .getById
          (mkRequest "7" .undefined .undefined) ()).calls) ∧
      (handle scalarRuntime okClient .getById (mkRequest "7" .undefined .undefined) ()).reply =
        .sent 200 (.json []) :=
  ⟨Or.inr rfl, List.mem_singleton.2 rfl,
    (read_success_reply scalarRuntime okClient .getById (mkRequest "7" .undefined .undefined) ()
      ⟨selectByIdSql, some [.str "7"]⟩ ⟨[], 0⟩ (Or.inr rfl) (List.mem_singleton.2 rfl)).1⟩

/-- C5: for an update request whose status is 1, 2 or 3 and for a delete
request, when the call to the database client reports no error the reply is
status 200 whatever the result of the query: update answers "Task updated
successfully", delete answers "The todo task with id <id> was deleted" with
the id of the path. Update makes one call only, its UPDATE statement, whose
text is not the INSERT text, and leaves the database in the state this one
call produced. -/
theorem update_and_delete_success_reply {σ : Type} (rt : JsRuntime) (client : Client σ)
    (upd del : Request) (db : σ) (hstatus : upd.body.status.isValidStatus) :
    (∀ result,
      (client db ⟨updateSql,
          some [upd.body.content, upd.body.status, .str upd.params.id]⟩).1 = .ok result →
        (routerPut rt client upd db).reply = .sent 200 (.text "Task updated successfully")) ∧
    (∀ stmt result, (stmt, .ok result) ∈ (routerDelete client del db).calls →
      (routerDelete client del db).reply =
        .sent 200 (.text ("The todo task with id " ++ del.params.id ++ " was deleted"))) ∧
    (routerPut rt client upd db).calls =
      [(⟨updateSql, some [upd.body.content, upd.body.status, .str upd.params.id]⟩,
        (client db ⟨updateSql,
          some [upd.body.content, upd.body.status, .str upd.params.id]⟩).1)] ∧
    updateSql ≠ insertSql ∧
    (routerPut rt client upd db).db =
      (client db ⟨updateSql,
        some [upd.body.content, upd.body.status, .str upd.params.id]⟩).2 := by
  have hacc := isValidStatus_accepted rt _ hstatus
  refine ⟨?_, ?_, ?_, by decide, ?_⟩
  · intro result hok
    rw [routerPut_accepted rt client upd db hacc, hok]
  · intro stmt result h
    exact routerDelete_reply client del db stmt _ h
  · rw [routerPut_accepted rt client upd db hacc]
  · rw [routerPut_accepted rt client upd db hacc]

/-- Witness of C5 at the status 3 and the id "7". -/
theorem update_and_delete_success_reply_witness :
    (JsValue.num (.fin 3)).isValidStatus ∧
      (routerPut scalarRuntime okClient
          (mkRequest "7" (.str "Buy milk") (.num (.fin 3))) ()).reply =
        .sent 200 (.text "Task updated successfully") ∧
      (routerDelete okClient (mkRequest "7" .undefined .undefined) ()).reply =
        .sent 200 (.text "The todo task with id 7 was deleted") :=
  ⟨Or.inr (Or.inr rfl),
    (update_and_delete_success_reply scalarRuntime okClient
      (mkRequest "7" (.str "Buy milk") (.num (.fin 3)))
      (mkRequest "7" .undefined .undefined) () (Or.inr (Or.inr rfl))).1 ⟨[], 0⟩ rfl,
    (update_and_delete_success_reply scalarRuntime okClient
      (mkRequest "7" (.str "Buy milk") (.num (.fin 3)))
      (mkRequest "7" .undefined .undefined) () (Or.inr (Or.inr rfl))).2.1
        ⟨deleteSql, some [.str "7"]⟩ ⟨[], 0⟩ (List.mem_singleton.2 rfl)⟩

/-- A call of any of the five handlers that the database client answers
with an error is replied to with status 500 and the body of the operation. -/
theorem handle_failed_reply {σ : Type} (rt : JsRuntime) (client : Client σ) (op : Op)
    (req : Request) (db : σ) (stmt : Statement) (err : DbError)
    (h : (stmt, .failed err) ∈ (handle rt client op req db).calls) :
    (handle rt client op req db).reply = .sent 500 (.text (storageErrorText op)) := by
  cases op
  · exact routerGet_reply client req db stmt _ h
  · exact routerGetId_reply client req db stmt _ h
  · exact routerPost_reply rt client req db stmt _ h
  · exact routerPut_reply rt client req db stmt _ h
  · exact routerDelete_reply client req db stmt _ h

/-- A call of any of the five handlers that throws synchronously is replied
to with status 404. -/
theorem handle_threw_reply {σ : Type} (rt : JsRuntime) (client : Client σ) (op : Op)
    (req : Request) (db : σ) (stmt : Statement)
    (h : (stmt, .threw) ∈ (handle rt client op req db).calls) :
    (handle rt client op req db).reply =
      .sent 404 (.text "Some error occured in fetching") := by
  cases op
  · exact routerGet_reply client req db stmt _ h
  · exact routerGetId_reply client req db stmt _ h
  · exact routerPost_reply rt client req db stmt _ h
  · exact routerPut_reply rt client req db stmt _ h
  · exact routerDelete_reply client req db stmt _ h

/-- C6: for each of the five operations, when the call to the database
client reports an error through its callback the reply is status 500 with
the fixed body of the operation ("Error retrieving data from database" for
list and get-by-id, "Error inserting data into database" for create, "Error
updating data in database" for update, "Error deleting data from database"
for delete); any other run of the same operation whose call reports an
error, whatever the error value, gets the same reply. -/
theorem storage_error_reply {σ : Type} (rt : JsRuntime) (client : Client σ) (op : Op)
    (req : Request) (db : σ) (stmt : Statement) (err : DbError)
    (hfail : (stmt, .failed err) ∈ (handle rt client op req db).calls) :
    (handle rt client op req db).reply = .sent 500 (.text (storageErrorText op)) ∧
      ∀ (rt2 : JsRuntime) (client2 : Client σ) (req2 : Request) (db2 : σ) (stmt2 : Statement)
        (err2 : DbError), (stmt2, .failed err2) ∈ (handle rt2 client2 op req2 db2).calls →
        (handle rt2 client2 op req2 db2).reply = (handle rt client op req db).reply := by
  have h := handle_failed_reply rt client op req db stmt err hfail
  refine ⟨h, ?_⟩
  intro rt2 client2 req2 db2 stmt2 err2 h2
  rw [h, handle_failed_reply rt2 client2 op req2 db2 stmt2 err2 h2]

/-- Witness of C6: create on a client that reports an error. -/
theorem storage_error_reply_witness :
    ((⟨insertSql, some [.str "Buy milk", .num (.fin 1)]⟩, .failed ⟨"connection lost"⟩) ∈
        (handle scalarRuntime (failingClient ⟨"connection lost"⟩) .create
          (mkRequest "7" (.str "Buy milk") (.num (.fin 1))) ()).calls) ∧
      (handle scalarRuntime (failingClient ⟨"connection lost"⟩) .create
          (mkRequest "7" (.str "Buy milk") (.num (.fin 1))) ()).reply =
        .sent 500 (.text "Error inserting data into database") :=
  have hmem : (⟨insertSql, some [.str "Buy milk", .num (.fin 1)]⟩, .failed ⟨"connection lost"⟩) ∈
      (handle scalarRuntime (failingClient ⟨"connection lost"⟩) .create
        (mkRequest "7" (.str "Buy milk") (.num (.fin 1))) ()).calls := by
    show _ ∈ (routerPost _ _ _ _).calls
    rw [routerPost_accepted _ _ _ _ (isValidStatus_accepted _ _ (Or.inl rfl))]
    exact List.mem_singleton.2 rfl
  ⟨hmem, (storage_error_reply scalarRuntime (failingClient ⟨"connection lost"⟩) .create
    (mkRequest "7" (.str "Buy milk") (.num (.fin 1))) () _ _ hmem).1⟩

/-- C7: for each of the five operations, when the call to the database
client throws synchronously the reply is status 404 with the body "Some
error occured in fetching"; when the call reports an error through its
callback the reply is the status 500 reply of the operation and not a 404
reply. -/
theorem sync_fault_reply {σ : Type} (rt : JsRuntime) (client : Client σ) (op : Op)
    (req : Request) (db : σ) (stmt : Statement) (out : QueryOutcome)
    (hcall : (stmt, out) ∈ (handle rt client op req db).calls) :
    (out = .threw →
      (handle rt client op req db).reply =
        .sent 404 (.text "Some error occured in fetching")) ∧
    (∀ err, out = .failed err →
      (handle rt client op req db).reply = .sent 500 (.text (storageErrorText op)) ∧
        ∀ body, (handle rt client op req db).reply ≠ .sent 404 body) := by
  refine ⟨?_, ?_⟩
  · intro hout
    subst hout
    exact handle_threw_reply rt client op req db stmt hcall
  · intro err hout
    subst hout
    have h := handle_failed_reply rt client op req db stmt err hcall
    refine ⟨h, ?_⟩
    intro body hb
    rw [h] at hb
    simp at hb

/-- Witness of C7: update on a client that throws synchronously. -/
theorem sync_fault_reply_witness :
    ((⟨updateSql, some [.str "Buy milk", .num (.fin 1), .str "7"]⟩, .threw) ∈
        (handle scalarRuntime throwingClient .update
          (mkRequest "7" (.str "Buy milk") (.num (.fin 1))) ()).calls) ∧
      (handle scalarRuntime throwingClient .update
          (mkRequest "7" (.str "Buy milk") (.num (.fin 1))) ()).reply =
        .sent 404 (.text "Some error occured in fetching") :=
  have hmem : (⟨updateSql, some [.str "Buy milk", .num (.fin 1), .str "7"]⟩, .threw) ∈
      (handle scalarRuntime throwingClient .update
        (mkRequest "7" (.str "Buy milk") (.num (.fin 1))) ()).calls := by
    show _ ∈ (routerPut _ _ _ _).calls
    rw [routerPut_accepted _ _ _ _ (isValidStatus_accepted _ _ (Or.inl rfl))]
    exact List.mem_singleton.2 rfl
  ⟨hmem, (sync_fault_reply scalarRuntime throwingClient .update
    (mkRequest "7" (.str "Buy milk") (.num (.fin 1))) () _ _ hmem).1 rfl⟩

/-- C8, refuted as stated: a create request with the status 0 is rejected
and makes no call to the database client, not one. -/
theorem rejected_create_makes_no_call :
    (routerPost scalarRuntime okClient
      (mkRequest "7" (.str "Buy milk") (.num (.fin 0))) ()).calls = [] ∧
    (routerPost scalarRuntime okClient
      (mkRequest "7" (.str "Buy milk") (.num (.fin 0))) ()).calls.length ≠ 1 := by
  have h : routerPost scalarRuntime okClient
      (mkRequest "7" (.str "Buy milk") (.num (.fin 0))) () = ⟨rejection, [], ()⟩ := by
    apply routerPost_rejected
    rw [statusRejected_true_iff]
    exact ⟨.fin 0, rfl, Or.inl (by simp only [JsNum.below]; norm_num)⟩
  rw [h]
  simp

/-- C8, amended: list, get-by-id and delete make exactly one call to the
database client for every request; create and update make exactly one call
when the status passes the check of the handler, and none when the check
rejects the status or throws. -/
theorem calls_per_request {σ : Type} (rt : JsRuntime) (client : Client σ)
    (req : Request) (db : σ) :
    (routerGet client req db).calls.length = 1 ∧
    (routerGetId client req db).calls.length = 1 ∧
    (routerDelete client req db).calls.length = 1 ∧
    (routerPost rt client req db).calls.length =
      (if statusRejected rt req.body.status = some false then 1 else 0) ∧
    (routerPut rt client req db).calls.length =
      (if statusRejected rt req.body.status = some false then 1 else 0) := by
  refine ⟨rfl, rfl, rfl, ?_, ?_⟩
  · rw [routerPost_calls]; split <;> rfl
  · rw [routerPut_calls]; split <;> rfl

/-- C9: the statement handed to the database client is determined by the
operation and the request alone: its text is the fixed text of the
operation, and its bind parameters are the request values, unconverted, in
the order none for list, [id] for get-by-id, [content, status] for create,
[content, status, id] for update and [id] for delete. Any two calls of the
same operation carry the same statement text. -/
theorem statement_text_fixed {σ : Type} (rt : JsRuntime) (client : Client σ) (op : Op)
    (req : Request) (db : σ) (stmt : Statement) (out : QueryOutcome) :
    (stmt, out) ∈ (handle rt client op req db).calls →
    (stmt =
      match op with
      | .list => ⟨selectAllSql, none⟩
      | .getById => ⟨selectByIdSql, some [.str req.params.id]⟩
      | .create => ⟨insertSql, some [req.body.content, req.body.status]⟩
      | .update => ⟨updateSql, some [req.body.content, req.body.status, .str req.params.id]⟩
      | .delete => ⟨deleteSql, some [.str req.params.id]⟩) ∧
    ∀ (rt2 : JsRuntime) (client2 : Client σ) (req2 : Request) (db2 : σ) (stmt2 : Statement)
      (out2 : QueryOutcome), (stmt2, out2) ∈ (handle rt2 client2 op req2 db2).calls →
      stmt2.text = stmt.text := by
  have key : ∀ (rt1 : JsRuntime) (client1 : Client σ) (req1 : Request) (db1 : σ)
      (stmt1 : Statement) (out1 : QueryOutcome),
      (stmt1, out1) ∈ (handle rt1 client1 op req1 db1).calls →
      stmt1 =
        match op with
        | .list => ⟨selectAllSql, none⟩
        | .getById => ⟨selectByIdSql, some [.str req1.params.id]⟩
        | .create => ⟨insertSql, some [req1.body.content, req1.body.status]⟩
        | .update =>
          ⟨updateSql, some [req1.body.content, req1.body.status, .str req1.params.id]⟩
        | .delete => ⟨deleteSql, some [.str req1.params.id]⟩ := by
    intro rt1 client1 req1 db1 stmt1 out1 h
    cases op
    · simp only [handle, routerGet_eq, List.mem_singleton, Prod.mk.injEq] at h
      exact h.1
    · simp only [handle, routerGetId_eq, List.mem_singleton, Prod.mk.injEq] at h
      exact h.1
    · simp only [handle, routerPost_calls] at h
      split at h
      · simp only [List.mem_singleton, Prod.mk.injEq] at h
        exact h.1
      · simp at h
    · simp only [handle, routerPut_calls] at h
      split at h
      · simp only [List.mem_singleton, Prod.mk.injEq] at h
        exact h.1
      · simp at h
    · simp only [handle, routerDelete_eq, List.mem_singleton, Prod.mk.injEq] at h
      exact h.1
  intro h
  refine ⟨key rt client req db stmt out h, ?_⟩
  intro rt2 client2 req2 db2 stmt2 out2 h2
  rw [key rt client req db stmt out h, key rt2 client2 req2 db2 stmt2 out2 h2]
  cases op <;> rfl

/-- Witness of C9: the statement of an update request. -/
theorem statement_text_fixed_witness :
    ((⟨updateSql, some [.str "Buy milk", .num (.fin 1), .str "7"]⟩, .ok ⟨[], 0⟩) ∈
        (handle scalarRuntime okClient .update
          (mkRequest "7" (.str "Buy milk") (.num (.fin 1))) ()).calls) ∧
      (⟨updateSql, some [.str "Buy milk", .num (.fin 1), .str "7"]⟩ : Statement) =
        ⟨"UPDATE todo \n                     SET content = $1, status = $2 \n                     WHERE id = $3",
          some [.str "Buy milk", .num (.fin 1), .str "7"]⟩ :=
  have hmem : (⟨updateSql, some [.str "Buy milk", .num (.fin 1), .str "7"]⟩, .ok ⟨[], 0⟩) ∈
      (handle scalarRuntime okClient .update
        (mkRequest "7" (.str "Buy milk") (.num (.fin 1))) ()).calls := by
    show _ ∈ (routerPut _ _ _ _).calls
    rw [routerPut_accepted _ _ _ _ (isValidStatus_accepted _ _ (Or.inl rfl))]
    exact List.mem_singleton.2 rfl
  ⟨hmem, (statement_text_fixed scalarRuntime okClient .update
    (mkRequest "7" (.str "Buy milk") (.num (.fin 1))) () _ _ hmem).1⟩

/-! ## Create followed by list, over the storage model -/

theorem storeClient_insert (st : Store) (content status : JsValue) :
    storeClient st ⟨insertSql, some [content, status]⟩ =
      (.ok ⟨[], 1⟩, st.insert content status) := by
  simp [storeClient]

theorem storeClient_selectAll (st : Store) :
    storeClient st ⟨selectAllSql, none⟩ = (.ok ⟨st.rows, st.rows.length⟩, st) := by
  have h : selectAllSql ≠ insertSql := by decide
  simp [storeClient, h, Store.selectAll]

theorem Store.wellFormed_empty (n : Nat) : (⟨[], n⟩ : Store).WellFormed := by
  intro r hr
  simp at hr

theorem Store.wellFormed_insert (st : Store) (content status : JsValue)
    (hwf : st.WellFormed) : (st.insert content status).WellFormed := by
  intro r hr
  simp only [Store.insert, List.mem_append, List.mem_singleton] at hr ⊢
  rcases hr with hr | rfl
  · exact Nat.lt_succ_of_lt (hwf r hr)
  · exact Nat.lt_succ_self _

/-- C10: over the storage model (the table is a collection of rows, INSERT
adds one row under a fresh id, SELECT * returns every row), for a create
request whose status is 1, 2 or 3 and whose content is a string (non-empty
or not): the create is answered 201, and a list issued after it is answered
200 with the rows a list returned before the create followed by exactly one
new record, which carries that content, that status and an id that no
earlier record has. -/
theorem create_then_list (rt : JsRuntime) (st : Store) (create listReq : Request)
    (content : String) (hwf : st.WellFormed) (hcontent : create.body.content = .str content)
    (hstatus : create.body.status.isValidStatus) :
    (routerGet storeClient listReq st).reply = .sent 200 (.json st.rows) ∧
    (routerPost rt storeClient create st).reply =
      .sent 201 (.text "New Todo task is created successfully") ∧
    (routerPost rt storeClient create st).db.WellFormed ∧
    ∃ row : Row,
      (routerGet storeClient listReq (routerPost rt storeClient create st).db).reply =
          .sent 200 (.json (st.rows ++ [row])) ∧
        (st.rows ++ [row]).length = st.rows.length + 1 ∧
        row.content = .str content ∧
        row.status = create.body.status ∧
        ∀ r ∈ st.rows, r.id ≠ row.id := by
  have hacc := isValidStatus_accepted rt _ hstatus
  have hpost := routerPost_accepted rt storeClient create st hacc
  rw [storeClient_insert] at hpost
  refine ⟨?_, ?_, ?_, ⟨st.nextId, create.body.content, create.body.status⟩, ?_, ?_, hcontent,
    rfl, ?_⟩
  · rw [routerGet_eq, storeClient_selectAll]
  · rw [hpost]
  · rw [hpost]
    exact Store.wellFormed_insert st _ _ hwf
  · rw [hpost, routerGet_eq, storeClient_selectAll]
    rfl
  · simp
  · intro r hr heq
    exact Nat.lt_irrefl _ (heq ▸ hwf r hr)

/-- Witness of C10: "Buy milk" with the status 1 added to a table that
holds one record. -/
theorem create_then_list_witness :
    sampleStore.WellFormed ∧ (JsValue.num (.fin 1)).isValidStatus ∧
      ∃ row : Row,
        (routerGet storeClient (mkRequest "" .undefined .undefined)
            (routerPost scalarRuntime storeClient
              (mkRequest "" (.str "Buy milk") (.num (.fin 1))) sampleStore).db).reply =
          .sent 200 (.json (sampleStore.rows ++ [row])) ∧
        (sampleStore.rows ++ [row]).length = sampleStore.rows.length + 1 ∧
        row.content = .str "Buy milk" ∧
        row.status = .num (.fin 1) ∧
        ∀ r ∈ sampleStore.rows, r.id ≠ row.id :=
  have hwf : sampleStore.WellFormed := by
    intro r hr
    simp only [sampleStore, List.mem_singleton] at hr
    subst hr
    decide
  ⟨hwf, Or.inl rfl,
    (create_then_list scalarRuntime sampleStore
      (mkRequest "" (.str "Buy milk") (.num (.fin 1))) (mkRequest "" .undefined .undefined)
      "Buy milk" hwf rfl (Or.inl rfl)).2.2.2⟩

end TodoApi
